import Mathlib

/-!
Verification of the interview session lifecycle core
(`InterviewSessionService.java` of the interview-guide repository).

The service manages mutable `InterviewSession` objects held in an in-memory
map (`sessions`) and mirrored best-effort to a persistence gateway.  We embed
the in-memory mutation logic of each service operation as a pure function
from the session state to the new session state plus a result
(`Except ErrorCode`), and the cache/store reconciliation as functions on a
`World` carrying the cache map and the durable store.

Machine integers: all indices in the Java code are `int`; request indices are
embedded as `Int` (the code checks `index < 0`), and stored positions as
`Nat` once validated.  External collaborators (question generator, evaluator)
are parameters of the corresponding operations, as in the spec they are
opaque.
-/

/-- Session status, from `InterviewSessionDTO.SessionStatus`
(`CREATED -> IN_PROGRESS -> COMPLETED -> EVALUATED`). -/
inductive SessionStatus where
  | CREATED
  | IN_PROGRESS
  | COMPLETED
  | EVALUATED
deriving Repr, DecidableEq, Inhabited

/-- Error codes of the interview module, from
`interview.guide.common.exception.ErrorCode` as used by the service. -/
inductive ErrorCode where
  | INTERVIEW_SESSION_NOT_FOUND
  | INTERVIEW_QUESTION_NOT_FOUND
  | INTERVIEW_ALREADY_COMPLETED
  | INTERVIEW_NOT_COMPLETED
deriving Repr, DecidableEq, Inhabited

/-- Decidable equality for `Except`, used to evaluate concrete runs. -/
instance {ε α : Type} [DecidableEq ε] [DecidableEq α] : DecidableEq (Except ε α) :=
  fun a b =>
    match a, b with
    | .ok x, .ok y =>
      if h : x = y then .isTrue (congrArg Except.ok h)
      else .isFalse (fun he => h (by injection he))
    | .error x, .error y =>
      if h : x = y then .isTrue (congrArg Except.error h)
      else .isFalse (fun he => h (by injection he))
    | .ok _, .error _ => .isFalse (fun he => by injection he)
    | .error _, .ok _ => .isFalse (fun he => by injection he)

/-- Modelled from the spec: `InterviewQuestionDTO` is not under `src/`; the
spec's data model (§3) gives a Question an ordered position `questionIndex`,
a category label, prompt text, an optional reference answer and an optional
`userAnswer` absent until saved/submitted. -/
structure InterviewQuestionDTO where
  questionIndex : Nat
  category : String
  question : String
  referenceAnswer : Option String
  userAnswer : Option String
deriving Repr, DecidableEq, Inhabited

/-- Modelled from the spec: the record wither `withAnswer` of
`InterviewQuestionDTO` replaces the optional `userAnswer` field with the
given answer text (overwrite semantics, spec §4.2). -/
def InterviewQuestionDTO.withAnswer (q : InterviewQuestionDTO) (a : String) :
    InterviewQuestionDTO :=
  { q with userAnswer := some a }

/-- The private inner class `InterviewSession` of the service: identifier,
resume text snapshot, optional resume (subject) id, the mutable question
list, `currentIndex` and `status`. -/
structure InterviewSession where
  sessionId : String
  resumeText : String
  resumeId : Option Nat
  questions : List InterviewQuestionDTO
  currentIndex : Nat
  status : SessionStatus
deriving Repr, DecidableEq, Inhabited

/-- The `SubmitAnswerResponse` record returned by `submitAnswer`. -/
structure SubmitAnswerResponse where
  hasNextQuestion : Bool
  nextQuestion : Option InterviewQuestionDTO
  currentIndex : Nat
  totalQuestions : Nat
deriving Repr, DecidableEq, Inhabited

/-- The `InterviewSessionDTO` produced by `toDTO`. -/
structure InterviewSessionDTO where
  sessionId : String
  resumeText : String
  totalQuestions : Nat
  currentIndex : Nat
  questions : List InterviewQuestionDTO
  status : SessionStatus
deriving Repr, DecidableEq, Inhabited

/-- The mapping `toDTO` of the service. -/
def toDTO (s : InterviewSession) : InterviewSessionDTO :=
  { sessionId := s.sessionId
    resumeText := s.resumeText
    totalQuestions := s.questions.length
    currentIndex := s.currentIndex
    questions := s.questions
    status := s.status }

/-!
## In-memory mutation cores

Each service operation first resolves the session (`getOrRestoreSession`) and
then mutates the resolved object in place.  The functions below are the
in-place mutation part, as a pure state transformer
`InterviewSession → InterviewSession × result`.  A thrown
`BusinessException` becomes `Except.error`; since every `throw` in the Java
methods happens before the first field write, the returned session equals the
input one in the error case, exactly as for the mutable Java object.
-/

/-- In-memory part of `submitAnswer` (service lines 238–291): validate the
index, overwrite the answer at that index, advance `currentIndex` to
`index + 1`, set status `COMPLETED` when no question remains, and build the
`SubmitAnswerResponse`. -/
def submitAnswer (s : InterviewSession) (index : Int) (answer : String) :
    InterviewSession × Except ErrorCode SubmitAnswerResponse :=
  if index < 0 ∨ (s.questions.length : Int) ≤ index then
    (s, .error .INTERVIEW_QUESTION_NOT_FOUND)
  else
    let i := index.toNat
    let question := s.questions.getD i default
    let answeredQuestion := question.withAnswer answer
    let questions := s.questions.set i answeredQuestion
    let currentIndex := i + 1
    let hasNextQuestion : Bool := currentIndex < questions.length
    let nextQuestion : Option InterviewQuestionDTO :=
      if hasNextQuestion then some (questions.getD currentIndex default) else none
    let status := if hasNextQuestion then s.status else SessionStatus.COMPLETED
    ({ s with questions := questions, currentIndex := currentIndex, status := status },
     .ok { hasNextQuestion := hasNextQuestion
           nextQuestion := nextQuestion
           currentIndex := currentIndex
           totalQuestions := questions.length })

/-- In-memory part of `saveAnswer` (service lines 296–330): validate the
index, overwrite the answer at that index, and move `CREATED` to
`IN_PROGRESS`; `currentIndex` is untouched. -/
def saveAnswer (s : InterviewSession) (index : Int) (answer : String) :
    InterviewSession × Except ErrorCode Unit :=
  if index < 0 ∨ (s.questions.length : Int) ≤ index then
    (s, .error .INTERVIEW_QUESTION_NOT_FOUND)
  else
    let i := index.toNat
    let question := s.questions.getD i default
    let answeredQuestion := question.withAnswer answer
    let questions := s.questions.set i answeredQuestion
    let status := if s.status = SessionStatus.CREATED then SessionStatus.IN_PROGRESS else s.status
    ({ s with questions := questions, status := status }, .ok ())

/-- In-memory part of `getCurrentQuestion` (service lines 211–233): `none`
when `currentIndex` has passed the end; otherwise move `CREATED` to
`IN_PROGRESS` and return the question at `currentIndex`. -/
def getCurrentQuestion (s : InterviewSession) :
    InterviewSession × Option InterviewQuestionDTO :=
  if s.questions.length ≤ s.currentIndex then
    (s, none)
  else
    let status := if s.status = SessionStatus.CREATED then SessionStatus.IN_PROGRESS else s.status
    ({ s with status := status }, some (s.questions.getD s.currentIndex default))

/-- In-memory part of `completeInterview` (service lines 335–355): fail when
already `COMPLETED` or `EVALUATED`, otherwise force status to `COMPLETED`. -/
def completeInterview (s : InterviewSession) :
    InterviewSession × Except ErrorCode Unit :=
  if s.status = SessionStatus.COMPLETED ∨ s.status = SessionStatus.EVALUATED then
    (s, .error .INTERVIEW_ALREADY_COMPLETED)
  else
    ({ s with status := SessionStatus.COMPLETED }, .ok ())

/-- In-memory part of `generateReport` (service lines 375–402): fail with
`INTERVIEW_NOT_COMPLETED` unless status is `COMPLETED` or `EVALUATED`;
otherwise invoke the external evaluator on
`(sessionId, resumeText, questions)`, set status `EVALUATED` and return the
evaluator's report.  The evaluator is opaque, hence a parameter. -/
def generateReport {ρ : Type} (ev : String → String → List InterviewQuestionDTO → ρ)
    (s : InterviewSession) : InterviewSession × Except ErrorCode ρ :=
  if s.status ≠ SessionStatus.COMPLETED ∧ s.status ≠ SessionStatus.EVALUATED then
    (s, .error .INTERVIEW_NOT_COMPLETED)
  else
    let report := ev s.sessionId s.resumeText s.questions
    ({ s with status := SessionStatus.EVALUATED }, .ok report)

/-!
## Durable store and cache

`InterviewPersistenceService` and the entities are not under `src/`; the
store below is modelled from the spec's PersistenceGateway contract (§6):
a session row per saved session, an answer-row table whose rows for a given
session are returned in write order (so that the restore loop's "last write
for a given index wins", §4.3), and a resume table resolving a subject id to
its resume text (`entity.getResume().getResumeText()`).
-/

/-- Modelled from the spec: a stored session record
(`InterviewSessionEntity`): session id, subject (resume) id, the serialized
question list as saved at creation, the persisted progress index and
status. -/
structure StoredSession where
  sessionId : String
  resumeId : Nat
  questionsJson : List InterviewQuestionDTO
  currentIndex : Nat
  status : SessionStatus
deriving Repr, DecidableEq, Inhabited

/-- Modelled from the spec: a per-question answer row
(`InterviewAnswerEntity`): session id, question position, question text and
category as saved by the service, and the answer text. -/
structure AnswerRow where
  sessionId : String
  questionIndex : Nat
  questionText : String
  category : String
  userAnswer : String
deriving Repr, DecidableEq, Inhabited

/-- Modelled from the spec: the durable store behind the
PersistenceGateway (§6). -/
structure Store where
  sessions : List StoredSession
  answers : List AnswerRow
  resumes : List (Nat × String)
deriving Repr, DecidableEq, Inhabited

/-- Modelled from the spec: `saveSession` creates the durable row for a new
session (questions serialized, metadata row written, §4.2); a new session has
`currentIndex = 0` and status `CREATED`. -/
def Store.saveSession (st : Store) (id : String) (rid : Nat)
    (qs : List InterviewQuestionDTO) : Store :=
  { st with sessions := st.sessions ++
      [{ sessionId := id, resumeId := rid, questionsJson := qs,
         currentIndex := 0, status := SessionStatus.CREATED }] }

/-- Modelled from the spec: `saveAnswer` writes an answer row (a later write
for the same index wins over an earlier one on restore, §4.3). -/
def Store.saveAnswer (st : Store) (id : String) (i : Nat)
    (qText cat ans : String) : Store :=
  { st with answers := st.answers ++
      [{ sessionId := id, questionIndex := i, questionText := qText,
         category := cat, userAnswer := ans }] }

/-- Modelled from the spec: `updateCurrentQuestionIndex`. -/
def Store.updateCurrentQuestionIndex (st : Store) (id : String) (n : Nat) : Store :=
  { st with sessions := st.sessions.map fun e =>
      if e.sessionId = id then { e with currentIndex := n } else e }

/-- Modelled from the spec: `updateSessionStatus`. -/
def Store.updateSessionStatus (st : Store) (id : String) (status : SessionStatus) : Store :=
  { st with sessions := st.sessions.map fun e =>
      if e.sessionId = id then { e with status := status } else e }

/-- Modelled from the spec: `findAnswersBySessionId` returns the session's
answer rows in write order. -/
def Store.findAnswersBySessionId (st : Store) (id : String) : List AnswerRow :=
  st.answers.filter fun r => r.sessionId == id

/-- Modelled from the spec: `findBySessionId`. -/
def Store.findBySessionId (st : Store) (id : String) : Option StoredSession :=
  st.sessions.find? fun e => e.sessionId == id

/-- Modelled from the spec: `findUnfinishedSession` returns the most recent
stored session of the subject whose status is `CREATED` or `IN_PROGRESS`;
rows are ordered by creation, so the most recent is the last match. -/
def Store.findUnfinishedSession (st : Store) (rid : Nat) : Option StoredSession :=
  st.sessions.reverse.find? fun e =>
    e.resumeId == rid &&
      (e.status == SessionStatus.CREATED || e.status == SessionStatus.IN_PROGRESS)

/-- Modelled from the spec: the resume text of a subject
(`entity.getResume().getResumeText()`). -/
def Store.resumeTextOf (st : Store) (rid : Nat) : String :=
  ((st.resumes.find? fun p => p.1 == rid).map Prod.snd).getD ""

/-- The cache map `sessions` of the service (`ConcurrentHashMap`): `put`
overwrites (realized as prepend with first-match lookup). -/
def cachePut (c : List (String × InterviewSession)) (id : String)
    (s : InterviewSession) : List (String × InterviewSession) :=
  (id, s) :: c

/-- Cache lookup `sessions.get(id)`. -/
def cacheGet (c : List (String × InterviewSession)) (id : String) :
    Option InterviewSession :=
  (c.find? fun p => p.1 == id).map Prod.snd

/-- The full mutable state of the service: the in-memory session map and the
durable store. -/
structure World where
  cache : List (String × InterviewSession)
  store : Store
deriving Repr, DecidableEq, Inhabited

/-- Method `restoreSessionFromEntity` (service lines 162–197): deserialize the
stored question list, then apply each persisted answer row in order,
overwriting the `userAnswer` of the question at the row's index when the
index is in range; build the session from the persisted `currentIndex` and
status. -/
def restoreSessionFromEntity (st : Store) (e : StoredSession) : InterviewSession :=
  let questions := (st.findAnswersBySessionId e.sessionId).foldl
    (fun qs (r : AnswerRow) =>
      if r.questionIndex < qs.length then
        qs.set r.questionIndex ((qs.getD r.questionIndex default).withAnswer r.userAnswer)
      else qs)
    e.questionsJson
  { sessionId := e.sessionId
    resumeText := st.resumeTextOf e.resumeId
    resumeId := some e.resumeId
    questions := questions
    currentIndex := e.currentIndex
    status := e.status }

/-- Method `restoreSessionFromDatabase` (service lines 146–157). -/
def restoreSessionFromDatabase (st : Store) (id : String) : Option InterviewSession :=
  (st.findBySessionId id).map (restoreSessionFromEntity st)

/-- Method `getOrRestoreSession` (service lines 360–370): cache hit, else restore
from the store and populate the cache, else `SESSION_NOT_FOUND`. -/
def getOrRestoreSession (w : World) (id : String) :
    Except ErrorCode (World × InterviewSession) :=
  match cacheGet w.cache id with
  | some s => .ok (w, s)
  | none =>
    match restoreSessionFromDatabase w.store id with
    | some s => .ok ({ w with cache := cachePut w.cache id s }, s)
    | none => .error .INTERVIEW_SESSION_NOT_FOUND

/-- Full `submitAnswer` (service lines 238–291): resolve the session, apply
the in-memory mutation, and when the session has a subject id mirror the
write to the store: the answer row (with the pre-overwrite question's text
and category), the new `currentIndex`, and the status (`COMPLETED` when
completed, otherwise `IN_PROGRESS`).  Persistence writes succeed in this
model (the code swallows their failures). -/
def submitAnswerFull (w : World) (id : String) (index : Int) (answer : String) :
    World × Except ErrorCode SubmitAnswerResponse :=
  match getOrRestoreSession w id with
  | .error e => (w, .error e)
  | .ok (w1, s) =>
    match submitAnswer s index answer with
    | (s1, .error e) => ({ w1 with cache := cachePut w1.cache id s1 }, .error e)
    | (s1, .ok resp) =>
      let w2 : World := { w1 with cache := cachePut w1.cache id s1 }
      match s1.resumeId with
      | none => (w2, .ok resp)
      | some _ =>
        let question := s.questions.getD index.toNat default
        let st := w2.store.saveAnswer id index.toNat question.question question.category answer
        let st := st.updateCurrentQuestionIndex id s1.currentIndex
        let st := st.updateSessionStatus id
          (if s1.status = SessionStatus.COMPLETED then SessionStatus.COMPLETED
           else SessionStatus.IN_PROGRESS)
        ({ w2 with store := st }, .ok resp)

/-- Method `findUnfinishedSession` (service lines 117–141): query the store for the
subject's most recent unfinished session; prefer the in-memory copy when the
cache already holds that session id, otherwise restore from the store and
populate the cache. -/
def World.findUnfinishedSession (w : World) (rid : Nat) :
    World × Option InterviewSessionDTO :=
  match w.store.findUnfinishedSession rid with
  | none => (w, none)
  | some e =>
    match cacheGet w.cache e.sessionId with
    | some s => (w, some (toDTO s))
    | none =>
      let s := restoreSessionFromEntity w.store e
      ({ w with cache := cachePut w.cache e.sessionId s }, some (toDTO s))

/-- Method `createSession` (service lines 53–97): with a subject id, first look for
an unfinished session of that subject and return it when found; otherwise
build a fresh session (`currentIndex = 0`, status `CREATED`) from the
generated questions, cache it, and (when the subject id is present) persist
it.  The fresh identifier and the generator's question list are opaque
inputs, hence parameters. -/
def createSession (w : World) (freshId : String)
    (genQuestions : List InterviewQuestionDTO) (resumeId : Option Nat)
    (resumeText : String) : World × InterviewSessionDTO :=
  let resumed : Option (World × InterviewSessionDTO) :=
    match resumeId with
    | none => none
    | some rid =>
      match w.findUnfinishedSession rid with
      | (w1, some dto) => some (w1, dto)
      | (_, none) => none
  match resumed with
  | some r => r
  | none =>
    let session : InterviewSession :=
      { sessionId := freshId, resumeText := resumeText, resumeId := resumeId,
        questions := genQuestions, currentIndex := 0,
        status := SessionStatus.CREATED }
    let w2 : World := { w with cache := cachePut w.cache freshId session }
    let w3 : World :=
      match resumeId with
      | some rid => { w2 with store := w2.store.saveSession freshId rid genQuestions }
      | none => w2
    (w3, toDTO session)

/-- The world after `findUnfinishedSession` restores a stored session into
the cache. -/
def restoredWorld (w : World) (e : StoredSession) : World :=
  { w with cache := cachePut w.cache e.sessionId (restoreSessionFromEntity w.store e) }

/-- The fresh in-memory session `createSession` builds. -/
def freshSession (id t : String) (rid : Nat)
    (qs : List InterviewQuestionDTO) : InterviewSession :=
  { sessionId := id, resumeText := t, resumeId := some rid, questions := qs,
    currentIndex := 0, status := SessionStatus.CREATED }

/-- The store row `saveSession` writes for a fresh session. -/
def freshRow (id : String) (rid : Nat)
    (qs : List InterviewQuestionDTO) : StoredSession :=
  { sessionId := id, resumeId := rid, questionsJson := qs, currentIndex := 0,
    status := SessionStatus.CREATED }

/-- The world after `createSession` builds, caches and persists a fresh
session. -/
def freshWorld (w : World) (id t : String) (rid : Nat)
    (qs : List InterviewQuestionDTO) : World :=
  { cache := cachePut w.cache id (freshSession id t rid qs),
    store := w.store.saveSession id rid qs }

/-!
## Helper definitions for the properties
-/

/-- Rank of a status in the forward order
`CREATED < IN_PROGRESS < COMPLETED < EVALUATED`. -/
def statusRank : SessionStatus → Nat
  | SessionStatus.CREATED => 0
  | SessionStatus.IN_PROGRESS => 1
  | SessionStatus.COMPLETED => 2
  | SessionStatus.EVALUATED => 3

/-- The recorded answers of a session, by question index. -/
def answersOf (s : InterviewSession) : List (Option String) :=
  s.questions.map fun q => q.userAnswer

/-- A sample question for concrete runs, dense position `i` as the
generator guarantees. -/
def mkQ (i : Nat) : InterviewQuestionDTO :=
  { questionIndex := i, category := "backend", question := "Q" ++ toString i,
    referenceAnswer := some ("R" ++ toString i), userAnswer := none }

/-- A sample ephemeral (no subject id) session with three questions. -/
def sessionA : InterviewSession :=
  { sessionId := "s1", resumeText := "cv", resumeId := none,
    questions := [mkQ 0, mkQ 1, mkQ 2], currentIndex := 0,
    status := SessionStatus.CREATED }

/-- A concrete evaluator used to run `generateReport` in closed scenarios. -/
def evConst : String → String → List InterviewQuestionDTO → Nat :=
  fun _ _ _ => 7

/-- A one-question ephemeral session used for the concrete runs below. -/
def oneQSession : InterviewSession :=
  { sessionId := "s2", resumeText := "cv", resumeId := none,
    questions := [mkQ 0], currentIndex := 0, status := SessionStatus.CREATED }

/-- The session reached from `oneQSession` by submitting its only answer:
status `COMPLETED`, answer recorded. -/
def completedOneQ : InterviewSession := (submitAnswer oneQSession 0 "a").1

/-- The session reached from `completedOneQ` by generating a report:
status `EVALUATED`. -/
def evaluatedOneQ : InterviewSession := (generateReport evConst completedOneQ).1

/-- The session reached from `sessionA` (three questions) by submitting in
order at indices 0 and 1 with no other operation in between. -/
def c4AfterTwo : InterviewSession :=
  (submitAnswer (submitAnswer sessionA 0 "a0").1 1 "a1").1

/-- The response of the second in-order submit on `sessionA`. -/
def c4Resp2 : Except ErrorCode SubmitAnswerResponse :=
  (submitAnswer (submitAnswer sessionA 0 "a0").1 1 "a1").2

/-- The session reached from `c4AfterTwo` by `completeEarly`. -/
def c4Completed : InterviewSession := (completeInterview c4AfterTwo).1

/-- The initial world for the store-equivalence run: empty cache and store,
one resume row for subject 1. -/
def c1World0 : World :=
  { cache := [],
    store := { sessions := [], answers := [], resumes := [(1, "cv")] } }

/-- The world after `createSession` for subject 1 with two questions. -/
def c1World1 : World :=
  (createSession c1World0 "sid1" [mkQ 0, mkQ 1] (some 1) "cv").1

/-- The world after one in-order `submitAnswer` (index 0), every persistence
write succeeding. -/
def c1World2 : World := (submitAnswerFull c1World1 "sid1" 0 "a0").1

/-- Behaviour of `submitAnswer` in the invalid-index case: the guard precedes every
field write, so the session comes back untouched. -/
theorem submitAnswer_invalid (s : InterviewSession) (i : Int) (a : String)
    (h : i < 0 ∨ (s.questions.length : Int) ≤ i) :
    submitAnswer s i a = (s, .error .INTERVIEW_QUESTION_NOT_FOUND) := by
  rw [submitAnswer, if_pos h]

/-- Behaviour of `saveAnswer` in the invalid-index case. -/
theorem saveAnswer_invalid (s : InterviewSession) (i : Int) (a : String)
    (h : i < 0 ∨ (s.questions.length : Int) ≤ i) :
    saveAnswer s i a = (s, .error .INTERVIEW_QUESTION_NOT_FOUND) := by
  rw [saveAnswer, if_pos h]

/-- Explicit form of `submitAnswer` on a valid index. -/
theorem submitAnswer_valid (s : InterviewSession) (i : Int) (a : String)
    (h1 : 0 ≤ i) (h2 : i < (s.questions.length : Int)) :
    submitAnswer s i a =
      ({ s with
          questions := s.questions.set i.toNat
            ((s.questions.getD i.toNat default).withAnswer a),
          currentIndex := i.toNat + 1,
          status := if i.toNat + 1 < s.questions.length then s.status
                    else SessionStatus.COMPLETED },
       .ok { hasNextQuestion := decide (i.toNat + 1 < s.questions.length)
             nextQuestion :=
               if i.toNat + 1 < s.questions.length then
                 some (s.questions.getD (i.toNat + 1) default)
               else none
             currentIndex := i.toNat + 1
             totalQuestions := s.questions.length }) := by
  rw [submitAnswer, if_neg (by omega)]
  have hne : i.toNat ≠ i.toNat + 1 := by omega
  have hq : (s.questions.set i.toNat
        ((s.questions.getD i.toNat default).withAnswer a)).getD (i.toNat + 1) default =
      s.questions.getD (i.toNat + 1) default := by
    simp [List.getD_eq_getElem?_getD, List.getElem?_set_ne hne]
  simp only [List.length_set, hq, decide_eq_true_eq]

/-- Claim C3: `submitAnswer` fails with `InvalidQuestionIndex` exactly on an
index outside `[0, len(questions))`; on a valid index it overwrites the
answer at that index (other questions untouched), sets `currentIndex` to
`index + 1`, returns `hasNext == (index + 1 < len)` with the question at
`index + 1` as `nextQuestion` when one remains, echoes `currentIndex` and
the total count, and sets the status to `COMPLETED` exactly when
`index + 1 == len`, leaving it unchanged otherwise. -/
theorem C3_submitAnswer_correct (s : InterviewSession) (i : Int) (a : String) :
    ((submitAnswer s i a).2 = .error .INTERVIEW_QUESTION_NOT_FOUND ↔
      (i < 0 ∨ (s.questions.length : Int) ≤ i)) ∧
    (0 ≤ i → i < (s.questions.length : Int) →
      (submitAnswer s i a).1.questions =
        s.questions.set i.toNat ((s.questions.getD i.toNat default).withAnswer a) ∧
      ((submitAnswer s i a).1.questions.getD i.toNat default).userAnswer = some a ∧
      (submitAnswer s i a).1.currentIndex = i.toNat + 1 ∧
      (submitAnswer s i a).2 =
        .ok { hasNextQuestion := decide (i.toNat + 1 < s.questions.length)
              nextQuestion :=
                if i.toNat + 1 < s.questions.length then
                  some (s.questions.getD (i.toNat + 1) default)
                else none
              currentIndex := i.toNat + 1
              totalQuestions := s.questions.length } ∧
      (submitAnswer s i a).1.status =
        (if i.toNat + 1 = s.questions.length then SessionStatus.COMPLETED
         else s.status)) := by
  constructor
  · by_cases h : i < 0 ∨ (s.questions.length : Int) ≤ i
    · rw [submitAnswer_invalid s i a h]
      simpa using h
    · rw [submitAnswer_valid s i a (by omega) (by omega)]
      simpa using h
  · intro h1 h2
    rw [submitAnswer_valid s i a h1 h2]
    have hlt : i.toNat < s.questions.length := by omega
    refine ⟨rfl, ?_, rfl, rfl, ?_⟩
    · rw [List.getD_eq_getElem?_getD, List.getElem?_set_self (by simpa using hlt)]
      rfl
    · by_cases hend : i.toNat + 1 = s.questions.length
      · simp [hend]
      · have : i.toNat + 1 < s.questions.length := by omega
        simp [hend, this]

/-- Witness for C3 at the three-question session `sessionA`, index 0. -/
theorem C3_submitAnswer_correct_witness :
    (0 : Int) ≤ 0 ∧ (0 : Int) < (sessionA.questions.length : Int) ∧
    (submitAnswer sessionA 0 "ans").1.currentIndex = (0 : Int).toNat + 1 ∧
    ((submitAnswer sessionA 0 "ans").1.questions.getD (0 : Int).toNat
      default).userAnswer = some "ans" :=
  ⟨by decide, by decide,
   ((C3_submitAnswer_correct sessionA 0 "ans").2 (by decide) (by decide)).2.2.1,
   ((C3_submitAnswer_correct sessionA 0 "ans").2 (by decide) (by decide)).2.1⟩

/-- Claim C10: a `submitAnswer` or `saveAnswer` call with an index outside
`[0, len(questions))` fails with `InvalidQuestionIndex` and leaves the
session state entirely unchanged (the index check precedes every
mutation). -/
theorem C10_invalid_index_no_mutation (s : InterviewSession) (i : Int) (a : String)
    (h : i < 0 ∨ (s.questions.length : Int) ≤ i) :
    submitAnswer s i a = (s, .error .INTERVIEW_QUESTION_NOT_FOUND) ∧
    saveAnswer s i a = (s, .error .INTERVIEW_QUESTION_NOT_FOUND) :=
  ⟨submitAnswer_invalid s i a h, saveAnswer_invalid s i a h⟩

/-- Witness for C10 at `sessionA`, index −1. -/
theorem C10_invalid_index_no_mutation_witness :
    ((-1 : Int) < 0 ∨ (sessionA.questions.length : Int) ≤ -1) ∧
    submitAnswer sessionA (-1) "x" = (sessionA, .error .INTERVIEW_QUESTION_NOT_FOUND) :=
  ⟨Or.inl (by decide),
   (C10_invalid_index_no_mutation sessionA (-1) "x" (Or.inl (by decide))).1⟩

/-- Claim C7: `completeEarly` fails with `AlreadyCompleted` exactly when the
status is already `COMPLETED` or `EVALUATED`; otherwise it forces the status
to `COMPLETED` — without requiring `currentIndex == len(questions)` — and
leaves `currentIndex` and every recorded answer unchanged. -/
theorem C7_completeEarly_correct (s : InterviewSession) :
    ((completeInterview s).2 = .error .INTERVIEW_ALREADY_COMPLETED ↔
      (s.status = SessionStatus.COMPLETED ∨ s.status = SessionStatus.EVALUATED)) ∧
    (¬(s.status = SessionStatus.COMPLETED ∨ s.status = SessionStatus.EVALUATED) →
      (completeInterview s).2 = .ok () ∧
      (completeInterview s).1.status = SessionStatus.COMPLETED ∧
      (completeInterview s).1.currentIndex = s.currentIndex ∧
      (completeInterview s).1.questions = s.questions) := by
  unfold completeInterview
  by_cases h : s.status = SessionStatus.COMPLETED ∨ s.status = SessionStatus.EVALUATED
  · rw [if_pos h]
    exact ⟨by simpa using h, fun hc => absurd h hc⟩
  · rw [if_neg h]
    exact ⟨by simpa using h, fun _ => ⟨rfl, rfl, rfl, rfl⟩⟩

/-- Witness for C7 at the not-yet-completed session `sessionA`. -/
theorem C7_completeEarly_correct_witness :
    ¬(sessionA.status = SessionStatus.COMPLETED ∨
      sessionA.status = SessionStatus.EVALUATED) ∧
    (completeInterview sessionA).1.status = SessionStatus.COMPLETED :=
  ⟨by decide, ((C7_completeEarly_correct sessionA).2 (by decide)).2.1⟩

/-- Claim C6: `generateReport` fails with `InterviewNotCompleted` exactly
when the status is neither `COMPLETED` nor `EVALUATED`; otherwise it returns
the evaluator's report for `(sessionId, resumeText, questions)` and leaves
the status `EVALUATED` — and calling it again from the resulting `EVALUATED`
state succeeds again with the evaluator's report. -/
theorem C6_generateReport_correct {ρ : Type}
    (ev : String → String → List InterviewQuestionDTO → ρ) (s : InterviewSession) :
    ((generateReport ev s).2 = .error .INTERVIEW_NOT_COMPLETED ↔
      (s.status ≠ SessionStatus.COMPLETED ∧ s.status ≠ SessionStatus.EVALUATED)) ∧
    (s.status = SessionStatus.COMPLETED ∨ s.status = SessionStatus.EVALUATED →
      (generateReport ev s).2 = .ok (ev s.sessionId s.resumeText s.questions) ∧
      (generateReport ev s).1.status = SessionStatus.EVALUATED ∧
      (generateReport ev (generateReport ev s).1).2 =
        .ok (ev s.sessionId s.resumeText s.questions) ∧
      (generateReport ev (generateReport ev s).1).1.status =
        SessionStatus.EVALUATED) := by
  unfold generateReport
  by_cases h : s.status ≠ SessionStatus.COMPLETED ∧ s.status ≠ SessionStatus.EVALUATED
  · rw [if_pos h]
    exact ⟨by simpa using h, fun hc => absurd hc (not_or.mpr ⟨h.1, h.2⟩)⟩
  · rw [if_neg h]
    refine ⟨by simpa using h, fun _ => ⟨rfl, rfl, ?_, ?_⟩⟩ <;> rfl

/-- Witness for C6 at a `COMPLETED` one-question session. -/
theorem C6_generateReport_correct_witness :
    (SessionStatus.COMPLETED = SessionStatus.COMPLETED ∨
      SessionStatus.COMPLETED = SessionStatus.EVALUATED) ∧
    (generateReport evConst
      { sessionId := "w6", resumeText := "cv", resumeId := none,
        questions := [mkQ 0], currentIndex := 1,
        status := SessionStatus.COMPLETED }).1.status = SessionStatus.EVALUATED :=
  ⟨Or.inl rfl,
   ((C6_generateReport_correct evConst
      { sessionId := "w6", resumeText := "cv", resumeId := none,
        questions := [mkQ 0], currentIndex := 1,
        status := SessionStatus.COMPLETED }).2 (Or.inl rfl)).2.1⟩

/-- Claim C8: `getCurrentQuestion` returns no question exactly when
`currentIndex` has reached the question count; otherwise it returns
`questions[currentIndex]` and moves the status to `IN_PROGRESS` exactly when
it was `CREATED`; and a successful `submitAnswer` at `index == currentIndex`
followed by `getCurrentQuestion` yields the question at the new
`currentIndex`, or none when the interview is exhausted. -/
theorem C8_getCurrentQuestion_correct (s : InterviewSession) (i : Int) (a : String) :
    ((getCurrentQuestion s).2 = none ↔ s.questions.length ≤ s.currentIndex) ∧
    (s.currentIndex < s.questions.length →
      (getCurrentQuestion s).2 = some (s.questions.getD s.currentIndex default) ∧
      (getCurrentQuestion s).1.status =
        (if s.status = SessionStatus.CREATED then SessionStatus.IN_PROGRESS
         else s.status)) ∧
    (i = (s.currentIndex : Int) → i < (s.questions.length : Int) →
      (getCurrentQuestion (submitAnswer s i a).1).2 =
        (if i.toNat + 1 < s.questions.length then
          some ((submitAnswer s i a).1.questions.getD (i.toNat + 1) default)
         else none)) := by
  refine ⟨?_, ?_, ?_⟩
  · unfold getCurrentQuestion
    by_cases h : s.questions.length ≤ s.currentIndex
    · rw [if_pos h]
      simpa using h
    · rw [if_neg h]
      simpa using h
  · intro h
    rw [getCurrentQuestion, if_neg (by omega)]
    exact ⟨rfl, rfl⟩
  · intro hi hlt
    have h0 : (0 : Int) ≤ i := by omega
    rw [submitAnswer_valid s i a h0 hlt]
    by_cases hend : i.toNat + 1 < s.questions.length
    · rw [getCurrentQuestion, if_neg (by simpa [List.length_set] using hend)]
      simp [hend]
    · rw [getCurrentQuestion, if_pos (by simp [List.length_set]; omega)]
      simp [hend]

/-- Witness for C8 at `sessionA` (three questions, `currentIndex = 0`),
submitting at the current index. -/
theorem C8_getCurrentQuestion_correct_witness :
    sessionA.currentIndex < sessionA.questions.length ∧
    (0 : Int) = (sessionA.currentIndex : Int) ∧
    (0 : Int) < (sessionA.questions.length : Int) ∧
    (getCurrentQuestion (submitAnswer sessionA 0 "ans").1).2 =
      (if (0 : Int).toNat + 1 < sessionA.questions.length then
        some ((submitAnswer sessionA 0 "ans").1.questions.getD
          ((0 : Int).toNat + 1) default)
       else none) :=
  ⟨by decide, by decide, by decide,
   (C8_getCurrentQuestion_correct sessionA 0 "ans").2.2 (by decide) (by decide)⟩

/-- Counterexample to claim C2: on the reachable `EVALUATED` one-question
session, `submitAnswer` at the final index moves the status backward to
`COMPLETED`. -/
theorem C2_counterexample :
    evaluatedOneQ.status = SessionStatus.EVALUATED ∧
    (submitAnswer evaluatedOneQ 0 "b").1.status = SessionStatus.COMPLETED ∧
    statusRank (submitAnswer evaluatedOneQ 0 "b").1.status <
      statusRank evaluatedOneQ.status := by
  decide

/-- Claim C2 as amended: the status never moves backward under
`getCurrentQuestion`, `saveAnswer`, `completeEarly` and `generateReport`;
`submitAnswer` never moves it backward either, except that submitting a
valid final index (`index + 1 == len(questions)`) on an `EVALUATED` session
resets the status to `COMPLETED`. -/
theorem C2_status_monotonic_amended {ρ : Type} (s : InterviewSession) (i : Int)
    (a : String) (ev : String → String → List InterviewQuestionDTO → ρ) :
    statusRank s.status ≤ statusRank (getCurrentQuestion s).1.status ∧
    statusRank s.status ≤ statusRank (saveAnswer s i a).1.status ∧
    statusRank s.status ≤ statusRank (completeInterview s).1.status ∧
    statusRank s.status ≤ statusRank (generateReport ev s).1.status ∧
    (statusRank s.status ≤ statusRank (submitAnswer s i a).1.status ∨
      (s.status = SessionStatus.EVALUATED ∧
       (submitAnswer s i a).1.status = SessionStatus.COMPLETED ∧
       0 ≤ i ∧ i.toNat + 1 = s.questions.length)) := by
  refine ⟨?_, ?_, ?_, ?_, ?_⟩
  · unfold getCurrentQuestion
    split
    · exact Nat.le_refl _
    · cases s.status <;> simp [statusRank]
  · unfold saveAnswer
    split
    · exact Nat.le_refl _
    · cases s.status <;> simp [statusRank]
  · unfold completeInterview
    split
    · exact Nat.le_refl _
    · cases hs : s.status <;> simp_all [statusRank]
  · unfold generateReport
    split
    · exact Nat.le_refl _
    · cases s.status <;> simp [statusRank]
  · by_cases hvalid : i < 0 ∨ (s.questions.length : Int) ≤ i
    · left
      rw [submitAnswer_invalid s i a hvalid]
    · rw [submitAnswer_valid s i a (by omega) (by omega)]
      by_cases hend : i.toNat + 1 < s.questions.length
      · left
        simp [hend]
      · cases hs : s.status
        · left; simp [hend, statusRank]
        · left; simp [hend, statusRank]
        · left; simp [hend, statusRank]
        · right
          exact ⟨rfl, by simp [hend], by omega, by omega⟩

/-- Counterexample to claim C9: on the reachable `COMPLETED` one-question
session, `saveAnswer` still overwrites the recorded answer. -/
theorem C9_counterexample :
    completedOneQ.status = SessionStatus.COMPLETED ∧
    answersOf completedOneQ = [some "a"] ∧
    answersOf (saveAnswer completedOneQ 0 "b").1 = [some "b"] ∧
    answersOf (saveAnswer completedOneQ 0 "b").1 ≠ answersOf completedOneQ := by
  decide

/-- Claim C9 as amended: for a session whose status is `COMPLETED` or
`EVALUATED`, no operation other than `submitAnswer` and `saveAnswer` changes
the recorded answers — `getCurrentQuestion`, `completeEarly` and
`generateReport` (the COMPLETED-to-EVALUATED transition) leave them
unchanged; `submitAnswer` and `saveAnswer` at a valid index, however, still
overwrite (the code has no status guard on them). -/
theorem C9_answers_immutable_amended (ev : String → String → List InterviewQuestionDTO → Nat)
    (s : InterviewSession)
    (h : s.status = SessionStatus.COMPLETED ∨ s.status = SessionStatus.EVALUATED) :
    answersOf (getCurrentQuestion s).1 = answersOf s ∧
    answersOf (completeInterview s).1 = answersOf s ∧
    answersOf (generateReport ev s).1 = answersOf s := by
  refine ⟨?_, ?_, ?_⟩
  · unfold getCurrentQuestion
    split <;> rfl
  · unfold completeInterview
    split <;> rfl
  · unfold generateReport
    split <;> rfl

/-- Witness for the amended C9 at the reachable `COMPLETED` session. -/
theorem C9_answers_immutable_amended_witness :
    (completedOneQ.status = SessionStatus.COMPLETED ∨
      completedOneQ.status = SessionStatus.EVALUATED) ∧
    answersOf (completeInterview completedOneQ).1 = answersOf completedOneQ :=
  ⟨Or.inl (by decide),
   (C9_answers_immutable_amended evConst completedOneQ (Or.inl (by decide))).2.1⟩

/-- Counterexample to claim C4: after creating a three-question session and
submitting at indices 0 and 1 with no other operation in between, the status
is still `CREATED`, not `IN_PROGRESS` (only `getCurrentQuestion` and
`saveAnswer` perform the CREATED-to-IN_PROGRESS transition; `submitAnswer`
does not). -/
theorem C4_counterexample :
    c4AfterTwo.currentIndex = 2 ∧
    c4AfterTwo.status = SessionStatus.CREATED ∧
    ¬c4AfterTwo.status = SessionStatus.IN_PROGRESS := by
  decide

/-- Claim C4 as amended: in the concrete scenario (three questions, submits
at indices 0 then 1, nothing else in between) the second submit leaves
`currentIndex == 2` and status `CREATED` (not `IN_PROGRESS`), and returns
`hasNext == true` with the index-2 question as `nextQuestion`; a subsequent
`completeEarly` succeeds and leaves status `COMPLETED` although index 2 was
never answered; a subsequent `generateReport` succeeds with the evaluator's
report, the question list it evaluates still having an absent answer at
index 2. -/
theorem C4_scenario_amended :
    c4AfterTwo.currentIndex = 2 ∧
    c4AfterTwo.status = SessionStatus.CREATED ∧
    c4Resp2 = .ok { hasNextQuestion := true, nextQuestion := some (mkQ 2),
                    currentIndex := 2, totalQuestions := 3 } ∧
    (mkQ 2).questionIndex = 2 ∧
    (completeInterview c4AfterTwo).2 = .ok () ∧
    c4Completed.status = SessionStatus.COMPLETED ∧
    (c4Completed.questions.getD 2 default).userAnswer = none ∧
    (generateReport evConst c4Completed).2 =
      .ok (evConst c4Completed.sessionId c4Completed.resumeText
        c4Completed.questions) := by
  decide

/-!
## Cache/store lemmas for create-or-resume
-/

/-- A `put` entry is what the next `get` of the same id sees. -/
theorem cacheGet_cachePut (c : List (String × InterviewSession)) (id : String)
    (s : InterviewSession) : cacheGet (cachePut c id s) id = some s := by
  simp [cacheGet, cachePut]

/-- After `saveSession`, the subject's most recent unfinished session is the
freshly created row. -/
theorem findUnfinished_saveSession (st : Store) (id : String) (rid : Nat)
    (qs : List InterviewQuestionDTO) :
    (st.saveSession id rid qs).findUnfinishedSession rid =
      some (freshRow id rid qs) := by
  simp [Store.saveSession, Store.findUnfinishedSession, freshRow]

/-- Case of `findUnfinishedSession` when the store has no unfinished session. -/
theorem findUnfinished_none (w : World) (rid : Nat)
    (h : w.store.findUnfinishedSession rid = none) :
    w.findUnfinishedSession rid = (w, none) := by
  simp [World.findUnfinishedSession, h]

/-- Case of `findUnfinishedSession` when the store row's session is already cached. -/
theorem findUnfinished_some_hit (w : World) (rid : Nat) (e : StoredSession)
    (s : InterviewSession) (h : w.store.findUnfinishedSession rid = some e)
    (hc : cacheGet w.cache e.sessionId = some s) :
    w.findUnfinishedSession rid = (w, some (toDTO s)) := by
  simp [World.findUnfinishedSession, h, hc]

/-- Case of `findUnfinishedSession` on a cache miss: restore and populate the
cache. -/
theorem findUnfinished_some_miss (w : World) (rid : Nat) (e : StoredSession)
    (h : w.store.findUnfinishedSession rid = some e)
    (hc : cacheGet w.cache e.sessionId = none) :
    w.findUnfinishedSession rid =
      (restoredWorld w e, some (toDTO (restoreSessionFromEntity w.store e))) := by
  simp [World.findUnfinishedSession, h, hc, restoredWorld]

/-- Case of `createSession` with a subject id when an unfinished session is found:
return it, create nothing. -/
theorem createSession_resumed (w : World) (rid : Nat) (id : String)
    (qs : List InterviewQuestionDTO) (t : String) (w1 : World)
    (dto : InterviewSessionDTO)
    (h : w.findUnfinishedSession rid = (w1, some dto)) :
    createSession w id qs (some rid) t = (w1, dto) := by
  simp [createSession, h]

/-- Case of `createSession` with a subject id when no unfinished session exists:
build, cache and persist a fresh `CREATED` session. -/
theorem createSession_fresh (w : World) (rid : Nat) (id : String)
    (qs : List InterviewQuestionDTO) (t : String) (w1 : World)
    (h : w.findUnfinishedSession rid = (w1, none)) :
    createSession w id qs (some rid) t =
      (freshWorld w id t rid qs, toDTO (freshSession id t rid qs)) := by
  simp [createSession, h, freshWorld, freshSession]

/-- Claim C5: two consecutive `createOrResume` calls for the same subject —
nothing happening in between, persistence writes succeeding — return the
same session identifier: the second call resumes the session the first call
returned instead of creating a new one. -/
theorem C5_createOrResume_idempotent (w : World) (rid : Nat) (id1 id2 : String)
    (qs1 qs2 : List InterviewQuestionDTO) (t1 t2 : String) :
    ((createSession (createSession w id1 qs1 (some rid) t1).1
        id2 qs2 (some rid) t2).2).sessionId =
      ((createSession w id1 qs1 (some rid) t1).2).sessionId := by
  cases hfu : w.store.findUnfinishedSession rid with
  | some e =>
    cases hc : cacheGet w.cache e.sessionId with
    | some s =>
      have h1 := findUnfinished_some_hit w rid e s hfu hc
      rw [createSession_resumed w rid id1 qs1 t1 w (toDTO s) h1,
        createSession_resumed w rid id2 qs2 t2 w (toDTO s) h1]
    | none =>
      have h1 := findUnfinished_some_miss w rid e hfu hc
      rw [createSession_resumed w rid id1 qs1 t1 _ _ h1]
      have h2 := findUnfinished_some_hit (restoredWorld w e) rid e
        (restoreSessionFromEntity w.store e) hfu
        (cacheGet_cachePut w.cache e.sessionId (restoreSessionFromEntity w.store e))
      rw [createSession_resumed _ rid id2 qs2 t2 _ _ h2]
  | none =>
    have h1 := findUnfinished_none w rid hfu
    rw [createSession_fresh w rid id1 qs1 t1 w h1]
    have h2 := findUnfinished_some_hit (freshWorld w id1 t1 rid qs1) rid
      (freshRow id1 rid qs1) (freshSession id1 t1 rid qs1)
      (findUnfinished_saveSession w.store id1 rid qs1)
      (cacheGet_cachePut w.cache id1 (freshSession id1 t1 rid qs1))
    rw [createSession_resumed _ rid id2 qs2 t2 _ _ h2]

/-- Claim C1, evaluated at the failing input: after creating a session for
subject 1 and submitting one in-order answer with every persistence write
succeeding, the session reconstructed from the durable store alone has the
same questions, answers and `currentIndex` as the in-memory session, but
status `IN_PROGRESS` where the in-memory session still has `CREATED`
(`submitAnswer` mirrors `IN_PROGRESS` to the store without ever setting it
in memory) — so the restored session is not observably equivalent. -/
theorem C1_restore_not_equivalent :
    (submitAnswerFull c1World1 "sid1" 0 "a0").2 =
      .ok { hasNextQuestion := true, nextQuestion := some (mkQ 1),
            currentIndex := 1, totalQuestions := 2 } ∧
    ((cacheGet c1World2.cache "sid1").map fun s => s.currentIndex) = some 1 ∧
    ((restoreSessionFromDatabase c1World2.store "sid1").map
      fun s => s.currentIndex) = some 1 ∧
    ((cacheGet c1World2.cache "sid1").map fun s => s.questions) =
      ((restoreSessionFromDatabase c1World2.store "sid1").map
        fun s => s.questions) ∧
    ((cacheGet c1World2.cache "sid1").map fun s => s.status) =
      some SessionStatus.CREATED ∧
    ((restoreSessionFromDatabase c1World2.store "sid1").map fun s => s.status) =
      some SessionStatus.IN_PROGRESS ∧
    ((cacheGet c1World2.cache "sid1").map fun s => s.status) ≠
      ((restoreSessionFromDatabase c1World2.store "sid1").map
        fun s => s.status) := by
  decide
